import Mathlib

/-
Verification development for the kasuga repository (molecular.py).

The Python source is embedded shallowly:
  * numpy float arrays of shape (3,) become the structure `Vec3` over ℚ
    (exact arithmetic; out-of-range indexing is modelled as an IndexError
    value via `Except`);
  * square roots and trigonometric calls, which never influence the
    control flow relevant to the claims, are abstracted as function
    parameters (`sq`, `cosd`, `sind`);
  * Python exceptions (TypeError, IndexError, AttributeError) and the
    fail-fast reporter become `Except.error`;
  * while-loops get an explicit fuel parameter, `.ok none` meaning the
    fuel ran out before the loop returned.
-/

namespace Kasuga

/-- A numpy array of shape (3,) holding coordinates, with exact rationals
standing in for IEEE floats. -/
structure Vec3 where
  x : ℚ
  y : ℚ
  z : ℚ
deriving DecidableEq, Repr

/-- numpy indexing `v[i]` on a shape-(3,) array: defined for 0, 1, 2 only. -/
def Vec3.get? (v : Vec3) (i : Nat) : Option ℚ :=
  match i with
  | 0 => some v.x
  | 1 => some v.y
  | 2 => some v.z
  | _ => none

/-- numpy indexing as a fallible operation: out-of-range raises IndexError. -/
def npIndex (v : Vec3) (i : Nat) : Except String ℚ :=
  match v.get? i with
  | some q => .ok q
  | none => .error "IndexError"

def Vec3.add (a b : Vec3) : Vec3 := ⟨a.x + b.x, a.y + b.y, a.z + b.z⟩

def Vec3.sub (a b : Vec3) : Vec3 := ⟨a.x - b.x, a.y - b.y, a.z - b.z⟩

def Vec3.smul (c : ℚ) (v : Vec3) : Vec3 := ⟨c * v.x, c * v.y, c * v.z⟩

/-- numpy broadcasting `array + scalar`: the scalar is added to every component. -/
def Vec3.addScalar (v : Vec3) (c : ℚ) : Vec3 := ⟨v.x + c, v.y + c, v.z + c⟩

/-- The squared Euclidean norm; `np.linalg.norm v = sq (v.normSq)` for the
abstract square-root parameter `sq`. -/
def Vec3.normSq (v : Vec3) : ℚ := v.x ^ 2 + v.y ^ 2 + v.z ^ 2

/-- np.cross of two 3-vectors. -/
def Vec3.cross (a b : Vec3) : Vec3 :=
  ⟨a.y * b.z - a.z * b.y, a.z * b.x - a.x * b.z, a.x * b.y - a.y * b.x⟩

/-- `Vector.mirror` (molecular.py lines 285-312), transcribed statement by
statement.  `sq` abstracts `np.sqrt`/`np.linalg.norm` (the outcome does not
depend on it).  The source computes
`abs(a * self.coord[0] + b * self.coord[1] + c * self.coord[3] + d)`,
reading index 3 of a 3-component array, and likewise `test1[3]`/`test2[3]`
in the two direction probes. -/
def Vector.mirror (sq : ℚ → ℚ) (coord normal point : Vec3) : Except String Vec3 := do
  -- n = normal / np.linalg.norm(normal)
  let nrm := sq normal.normSq
  let n : Vec3 := ⟨normal.x / nrm, normal.y / nrm, normal.z / nrm⟩
  -- plane coefficients, taken from the *unnormalized* normal as in the source
  let a := normal.x
  let b := normal.y
  let c := normal.z
  let d := -1 * (a * point.x + b * point.y + c * point.z)
  -- distance between the vector and the mirror plane
  let c0 ← npIndex coord 0
  let c1 ← npIndex coord 1
  let c3 ← npIndex coord 3
  let distance := |a * c0 + b * c1 + c * c3 + d| / sq (a ^ 2 + b ^ 2 + c ^ 2)
  let test1 := coord.add (Vec3.smul (2 * distance) n)
  let test2 := coord.sub (Vec3.smul (2 * distance) n)
  let t10 ← npIndex test1 0
  let t11 ← npIndex test1 1
  let t13 ← npIndex test1 3
  let distanceTest1 := |a * t10 + b * t11 + c * t13 + d| / sq (a ^ 2 + b ^ 2 + c ^ 2)
  let t20 ← npIndex test2 0
  let t21 ← npIndex test2 1
  let t23 ← npIndex test2 3
  let distanceTest2 := |a * t20 + b * t21 + c * t23 + d| / sq (a ^ 2 + b ^ 2 + c ^ 2)
  if distanceTest1 < distanceTest2 then pure test1 else pure test2

/-- The 3x3 matrix `Vector.rotate` builds (molecular.py lines 339-347), as a
function of c = np.cos(angle_rad), s = np.sin(angle_rad) and the normalized
axis components (u0, u1, u2).  Entry [0,2] multiplies `axis_vector[0] *
axis_vector[0]` (as in the source), entries [1,0] and [2,0] copy [0,1] and
[0,2], and entry [2,1] is never assigned, so it keeps the np.zeros value 0. -/
def rotationMatrix (c s u0 u1 u2 : ℚ) : Matrix (Fin 3) (Fin 3) ℚ :=
  !![c + u0 ^ 2 * (1 - c), u0 * u1 * (1 - c) - u2 * s, u0 * u0 * (1 - c) + u1 * s;
     u0 * u1 * (1 - c) - u2 * s, c + u1 ^ 2 * (1 - c), u1 * u2 * (1 - c) - u0 * s;
     u0 * u0 * (1 - c) + u1 * s, 0, c + u2 ^ 2 * (1 - c)]

/-- `Vector.rotate` (molecular.py lines 329-350).  `cosd`/`sind` abstract
`np.cos (np.deg2rad ·)` and `np.sin (np.deg2rad ·)`; `sq` abstracts the norm.
The final update follows the source: the rotated offset is subtracted from
the original offset and the difference is *added* to the coordinate. -/
def Vector.rotate (cosd sind sq : ℚ → ℚ) (coord : Vec3) (angle : ℚ)
    (axisVector axisPoint : Vec3) : Vec3 :=
  let axisDiff := coord.sub axisPoint
  let nrm := sq axisVector.normSq
  let u : Vec3 := ⟨axisVector.x / nrm, axisVector.y / nrm, axisVector.z / nrm⟩
  let c := cosd angle
  let s := sind angle
  let m := rotationMatrix c s u.x u.y u.z
  -- np.matmul(axis_diff, matrix): a row vector times the matrix
  let rotated : Vec3 :=
    ⟨axisDiff.x * m 0 0 + axisDiff.y * m 1 0 + axisDiff.z * m 2 0,
     axisDiff.x * m 0 1 + axisDiff.y * m 1 1 + axisDiff.z * m 2 1,
     axisDiff.x * m 0 2 + axisDiff.y * m 1 2 + axisDiff.z * m 2 2⟩
  let translation := axisDiff.sub rotated
  coord.add translation

/-- C8: the claim states `Vector.mirror` replaces `coord` with its reflection
across the plane through `point` with the given `normal`.  In fact the source
evaluates `self.coord[3]` on a 3-component array, so for every input —
whatever square-root model, coordinate, normal and plane point — the method
raises IndexError and no reflection is computed. -/
theorem mirror_raises_indexError (sq : ℚ → ℚ) (coord normal point : Vec3) :
    Vector.mirror sq coord normal point = .error "IndexError" := rfl

/-- C4: the claim states the matrix built inside `Vector.rotate` is orthonormal
with determinant +1 for every angle and non-zero axis.  At angle 90 degrees
(cos = 0, sin = 1, established below for the source's degree-to-radian
conversion) and axis (1,0,0) — already unit, so normalization is the identity —
the built matrix is [[1,0,1],[0,0,-1],[1,0,0]]: its determinant is 0, not 1,
and (Mᵀ·M) at entry (0,0) is 2, not 1, so Mᵀ·M ≠ I. -/
theorem rotationMatrix_not_orthonormal :
    Real.cos ((90 : ℝ) * Real.pi / 180) = 0 ∧
    Real.sin ((90 : ℝ) * Real.pi / 180) = 1 ∧
    (rotationMatrix 0 1 1 0 0).det = 0 ∧
    ((rotationMatrix 0 1 1 0 0).transpose * rotationMatrix 0 1 1 0 0) 0 0 = 2 := by
  refine ⟨?_, ?_, ?_, ?_⟩
  · have h : (90 : ℝ) * Real.pi / 180 = Real.pi / 2 := by ring
    rw [h, Real.cos_pi_div_two]
  · have h : (90 : ℝ) * Real.pi / 180 = Real.pi / 2 := by ring
    rw [h, Real.sin_pi_div_two]
  · simp [rotationMatrix, Matrix.det_fin_three, Matrix.vecHead, Matrix.vecTail]
  · simp [rotationMatrix, Matrix.mul_apply, Matrix.transpose_apply, Fin.sum_univ_three,
      Matrix.vecHead, Matrix.vecTail]
    norm_num

/-! ## ConnectivityGraph (molecular.py lines 373-405) -/

/-- `ConnectivityGraph`: a `size` x `size` adjacency matrix; `nodes i j = true`
stands for the entry 1. -/
structure ConnectivityGraph where
  size : Nat
  nodes : Nat → Nat → Bool

/-- The Python value that reaches `flood_fill_search` as `excluded`:
`(x)` is the bare int x (what `change_bond`/`change_angle` pass), while
`(x, y, ...)` is a tuple. -/
inductive PyExcluded where
  | int : Nat → PyExcluded
  | tup : List Nat → PyExcluded

/-- Python's `i not in excluded`: membership on an int raises TypeError. -/
def pyNotIn (i : Nat) : PyExcluded → Except String Bool
  | .int _ => .error "TypeError"
  | .tup l => .ok (!(l.contains i))

/-- The working state of `flood_fill_search`: the numpy 0/1 arrays `inside`
and `checked` (as Bool lists) and the current `startpoint`. -/
structure FloodState where
  inside : List Bool
  checked : List Bool
  startpoint : Nat
deriving DecidableEq, Repr

/-- The marking loop (lines 383-386): every vertex adjacent to the current
startpoint and not in `excluded` is marked inside.  The membership test is
only evaluated for adjacent vertices, in index order, as in the source. -/
def markLoop (g : ConnectivityGraph) (excluded : PyExcluded) (sp : Nat)
    (inside : List Bool) : Except String (List Bool) :=
  (List.range g.size).foldlM
    (fun ins i =>
      if g.nodes sp i || g.nodes i sp then do
        let notin ← pyNotIn i excluded
        pure (if notin then ins.set i true else ins)
      else pure ins)
    inside

/-- The counting loop (lines 388-396): tallies `count_inside` and
`count_checked` and reassigns the startpoint to the last index that is both
checked and inside (the condition `checked[i] != 0 and inside[i] == 1` of the
source).  Returns (count_inside, count_checked, new startpoint). -/
def countLoop (g : ConnectivityGraph) (st : FloodState) : Nat × Nat × Nat :=
  (List.range g.size).foldl
    (fun acc i =>
      let cc := if st.checked.getD i false then acc.2.1 + 1 else acc.2.1
      let ci := if st.inside.getD i false then acc.1 + 1 else acc.1
      let sp := if st.checked.getD i false && st.inside.getD i false then i else acc.2.2
      (ci, cc, sp))
    (0, 0, st.startpoint)

/-- One iteration of the `while True` body of `flood_fill_search`:
`.inr inside` when the equal-counts exit fires, `.inl` with the next state
otherwise. -/
def floodBody (g : ConnectivityGraph) (excluded : PyExcluded) (st : FloodState) :
    Except String (FloodState ⊕ List Bool) := do
  let inside ← markLoop g excluded st.startpoint st.inside
  let checked := st.checked.set st.startpoint true
  let (ci, cc, sp) := countLoop g ⟨inside, checked, st.startpoint⟩
  if ci = cc then pure (.inr inside)
  else pure (.inl ⟨inside, checked, sp⟩)

/-- The `while True` loop with explicit fuel; `.ok none` records that the
given number of iterations did not reach the return statement. -/
def floodRun (g : ConnectivityGraph) (excluded : PyExcluded) :
    Nat → FloodState → Except String (Option (List Bool))
  | 0, _ => .ok none
  | fuel + 1, st =>
    match floodBody g excluded st with
    | .error e => .error e
    | .ok (.inr inside) => .ok (some inside)
    | .ok (.inl st') => floodRun g excluded fuel st'

/-- `ConnectivityGraph.flood_fill_search` (molecular.py lines 379-398), with
`inside` and `checked` initialized to np.zeros(size). -/
def flood_fill_search (g : ConnectivityGraph) (startpoint : Nat)
    (excluded : PyExcluded) (fuel : Nat) : Except String (Option (List Bool)) :=
  floodRun g excluded fuel
    ⟨List.replicate g.size false, List.replicate g.size false, startpoint⟩

/-- `ConnectivityGraph.subsets_connected` (molecular.py lines 400-405) with the
subsets given as arrays of vertex members: the source loops over
`range(subset_one.size)` and `range(subset_two.size)` — the positions
0..len-1 — and tests adjacency of those *positions*, never reading the
members themselves. -/
def subsets_connected (g : ConnectivityGraph) (subsetOne subsetTwo : List Nat) : Bool :=
  (List.range subsetOne.length).any fun i1 =>
    (List.range subsetTwo.length).any fun i2 =>
      g.nodes i1 i2 || g.nodes i2 i1

/-- The same code applied to the 0/1 mask arrays returned by
`flood_fill_search` (their numpy `.size` is the full graph size), as
`change_bond`/`change_angle` do. -/
def subsets_connected_mask (g : ConnectivityGraph) (m1 m2 : List Bool) : Bool :=
  (List.range m1.length).any fun i1 =>
    (List.range m2.length).any fun i2 =>
      g.nodes i1 i2 || g.nodes i2 i1

/-! ## Atoms and molecules -/

/-- An `Atom`: element symbol, derived weight and coordinates. -/
structure AtomV where
  symbol : String
  weight : ℚ
  coord : Vec3
deriving DecidableEq, Repr

/-- A `Molecule` restricted to what the editing claims need: the ordered atom
list and the owned connectivity graph. -/
structure MoleculeV where
  atoms : List AtomV
  connectivity_graph : ConnectivityGraph

/-- Python list indexing: out of range raises IndexError. -/
def listIdx (l : List AtomV) (i : Nat) : Except String AtomV :=
  match l.get? i with
  | some a => .ok a
  | none => .error "IndexError"

/-- `Molecule.change_bond` (molecular.py lines 640-652).  `sq` abstracts the
square root inside `np.linalg.norm`.  Two source details transcribed
faithfully: `excluded` is passed as the bare int `(bond[1])` resp.
`(bond[0])`, and `translation_vector` is overwritten by its scalar norm, so
the later updates add a broadcast scalar to every coordinate component.
In the acyclic branch the source iterates over the numpy float mask itself
and indexes the Python atom list with those floats, which raises TypeError;
`.ok none` means the flood-fill fuel ran out. -/
def change_bond (sq : ℚ → ℚ) (m : MoleculeV) (bond : Nat × Nat) (delta : ℚ)
    (fuel : Nat) : Except String (Option MoleculeV) := do
  let some firstFragment ←
      flood_fill_search m.connectivity_graph bond.1 (.int bond.2) fuel
    | pure none
  let some secondFragment ←
      flood_fill_search m.connectivity_graph bond.2 (.int bond.1) fuel
    | pure none
  let atom0 ← listIdx m.atoms bond.1
  let atom1 ← listIdx m.atoms bond.2
  let tv := atom0.coord.sub atom1.coord
  let tvn := sq tv.normSq
  if subsets_connected_mask m.connectivity_graph firstFragment secondFragment then
    let atoms' := m.atoms.set bond.1
      { atom0 with coord := atom0.coord.addScalar (delta * tvn / 2) }
    let atoms'' := atoms'.set bond.2
      { atom1 with coord := atom1.coord.addScalar (-(delta * tvn / 2)) }
    pure (some { m with atoms := atoms'' })
  else
    -- for i in first_fragment: self.atoms[i].coord += ...  — i is a numpy
    -- float, and a Python list rejects float indices with TypeError
    let atoms' ← firstFragment.foldlM
      (fun (_ : List AtomV) (_ : Bool) =>
        (Except.error "TypeError" : Except String (List AtomV))) m.atoms
    let atoms'' ← secondFragment.foldlM
      (fun (_ : List AtomV) (_ : Bool) =>
        (Except.error "TypeError" : Except String (List AtomV))) atoms'
    pure (some { m with atoms := atoms'' })

/-- `Molecule.change_angle` (molecular.py lines 654-667), with the same
conventions as `change_bond`.  In the cross-linked branch the source rotates
`atoms[angle[0]]` in *both* statements (the second should act on
`atoms[angle[2]]`); also, the source passes the Atom object
`self.atoms[angle[1]]` as rotate's axis point — here its coordinates. -/
def change_angle (cosd sind sq : ℚ → ℚ) (m : MoleculeV) (angle : Nat × Nat × Nat)
    (delta : ℚ) (fuel : Nat) : Except String (Option MoleculeV) := do
  let some firstFragment ←
      flood_fill_search m.connectivity_graph angle.1 (.int angle.2.1) fuel
    | pure none
  let some secondFragment ←
      flood_fill_search m.connectivity_graph angle.2.2 (.int angle.2.1) fuel
    | pure none
  let a0 ← listIdx m.atoms angle.1
  let a1 ← listIdx m.atoms angle.2.1
  let a2 ← listIdx m.atoms angle.2.2
  let v1 := a0.coord.sub a1.coord
  let v2 := a2.coord.sub a1.coord
  let rotationVector := Vec3.cross v1 v2
  if subsets_connected_mask m.connectivity_graph firstFragment secondFragment then
    let c1 := Vector.rotate cosd sind sq a0.coord (delta / 2) rotationVector a1.coord
    let c2 := Vector.rotate cosd sind sq c1 (-1 * delta / 2) rotationVector a1.coord
    pure (some { m with atoms := m.atoms.set angle.1 { a0 with coord := c2 } })
  else
    let atoms' ← firstFragment.foldlM
      (fun (_ : List AtomV) (_ : Bool) =>
        (Except.error "TypeError" : Except String (List AtomV))) m.atoms
    let atoms'' ← secondFragment.foldlM
      (fun (_ : List AtomV) (_ : Bool) =>
        (Except.error "TypeError" : Except String (List AtomV))) atoms'
    pure (some { m with atoms := atoms'' })

/-! ## Concrete graphs and molecules used as inputs -/

/-- Two vertices joined by one edge (set symmetrically, as
`get_connectivity_matrix` does). -/
def graphEdge01 : ConnectivityGraph :=
  ⟨2, fun i j => (i == 0 && j == 1) || (i == 1 && j == 0)⟩

/-- A path 0 - 1 - 2. -/
def graphPath3 : ConnectivityGraph :=
  ⟨3, fun i j =>
    (i == 0 && j == 1) || (i == 1 && j == 0) ||
    (i == 1 && j == 2) || (i == 2 && j == 1)⟩

/-- A triangle 0 - 1 - 2 - 0: the smallest ring. -/
def graphTriangle : ConnectivityGraph :=
  ⟨3, fun i j =>
    (i == 0 && j == 1) || (i == 1 && j == 0) ||
    (i == 1 && j == 2) || (i == 2 && j == 1) ||
    (i == 0 && j == 2) || (i == 2 && j == 0)⟩

/-- Two bonded hydrogen atoms at (0,0,0) and (1,0,0). -/
def molH2 : MoleculeV :=
  ⟨[⟨"H", 1.0075, ⟨0, 0, 0⟩⟩, ⟨"H", 1.0075, ⟨1, 0, 0⟩⟩], graphEdge01⟩

/-- A three-membered carbon ring. -/
def molRing3 : MoleculeV :=
  ⟨[⟨"C", 12.0106, ⟨0, 0, 0⟩⟩, ⟨"C", 12.0106, ⟨1, 0, 0⟩⟩, ⟨"C", 12.0106, ⟨0, 1, 0⟩⟩],
   graphTriangle⟩

/-- The loop state `flood_fill_search graphEdge01 0 (excluded = (1))` reaches
after one iteration: nothing inside, vertex 0 checked. -/
def stuckState : FloodState := ⟨[false, false], [true, false], 0⟩

/-- From `stuckState` the loop makes no progress: `floodBody` maps it to
itself with count_inside = 0 ≠ count_checked = 1, so no amount of fuel
reaches the return. -/
theorem floodRun_stuck (n : Nat) :
    floodRun graphEdge01 (.tup [1]) n stuckState = .ok none := by
  induction n with
  | zero => rfl
  | succ n ih =>
    have h : floodRun graphEdge01 (.tup [1]) (n + 1) stuckState =
        floodRun graphEdge01 (.tup [1]) n stuckState := rfl
    rw [h]
    exact ih

/-- C6: the claim states `flood_fill_search` terminates for every finite
graph, start vertex and excluded set.  On the two-vertex graph with the
single edge 0-1, start 0 and excluded {1} (a proper tuple, so no TypeError
arises), the loop state immediately becomes a fixpoint whose exit test
compares count_inside = 0 with count_checked = 1: for every fuel bound the
loop has still not returned. -/
theorem flood_fill_search_nonterminating (fuel : Nat) :
    flood_fill_search graphEdge01 0 (.tup [1]) fuel = .ok none := by
  cases fuel with
  | zero => rfl
  | succ n =>
    have h : flood_fill_search graphEdge01 0 (.tup [1]) (n + 1) =
        floodRun graphEdge01 (.tup [1]) n stuckState := rfl
    rw [h]
    exact floodRun_stuck n

/-- C2: the claim states `flood_fill_search` returns exactly the vertices
reachable from the start without crossing excluded vertices.  On the path
0 - 1 - 2 with start 0 and no exclusions the search returns after its first
iteration with the mask {1}: vertex 2 is reachable through the edges 0-1 and
1-2 recorded below, yet it is not in the result. -/
theorem flood_fill_search_misses_reachable :
    flood_fill_search graphPath3 0 (.tup []) 10 = .ok (some [false, true, false]) ∧
    graphPath3.nodes 0 1 = true ∧ graphPath3.nodes 1 2 = true :=
  ⟨rfl, rfl, rfl⟩

/-- C5: the claim states `subsets_connected A B` is true iff some edge joins
a member of A to a member of B.  With A = {1} and B = {0} on the single-edge
graph the source inspects only `nodes[0][0]` (it iterates the positions
`range(len(A))` x `range(len(B))`, not the members) and answers false,
although the edge 0-1 joins the member 1 of A to the member 0 of B. -/
theorem subsets_connected_ignores_members :
    subsets_connected graphEdge01 [1] [0] = false ∧
    graphEdge01.nodes 1 0 = true :=
  ⟨rfl, rfl⟩

/-- C1: the claim states `change_bond` translates the two flanking fragments
by ±delta/2 along the bond's unit direction so the bond length changes by
delta.  On the minimal bonded pair the call instead raises TypeError for
every delta, square-root model and positive fuel: `flood_fill_search`
receives the bare int `(bond[1])` as `excluded` and Python's `in` fails on
an int (moreover `translation_vector` was already overwritten by its scalar
norm, so no unit direction exists to translate along). -/
theorem change_bond_raises_typeError (sq : ℚ → ℚ) (delta : ℚ) (fuel : Nat) :
    change_bond sq molH2 (0, 1) delta (fuel + 1) = .error "TypeError" := rfl

/-- C3: the claim states that on a ring topology `change_bond` and
`change_angle` move only the defining atoms and leave every other atom
bit-identical.  On the three-membered ring both editors instead raise
TypeError before touching any coordinate, for every delta, trigonometry and
square-root model, and positive fuel: the excluded argument they hand to
`flood_fill_search` is a bare int. -/
theorem ring_edit_raises_typeError (cosd sind sq : ℚ → ℚ) (delta : ℚ) (fuel : Nat) :
    change_bond sq molRing3 (0, 1) delta (fuel + 1) = .error "TypeError" ∧
    change_angle cosd sind sq molRing3 (0, 1, 2) delta (fuel + 1) = .error "TypeError" :=
  ⟨rfl, rfl⟩

/-! ## Atomic weights and Atom.assign_weight -/

/-- The `element_weight` dictionary (molecular.py lines 55-168). -/
def element_weight : List (String × ℚ) :=
  [("H", 1.0075), ("He", 4.002), ("Li", 6.9675), ("Be", 9.012), ("B", 10.8135),
   ("C", 12.0106), ("N", 14.0065), ("O", 15.999), ("F", 18.998), ("Ne", 20.1797),
   ("Na", 22.989), ("Mg", 24.3050), ("Al", 26.981), ("Si", 28.085), ("P", 30.973),
   ("S", 32.0675), ("Cl", 35.4515), ("Ar", 39.948), ("K", 39.0983), ("Ca", 40.078),
   ("Sc", 44.955), ("Ti", 47.867), ("V", 50.9415), ("Cr", 51.9961), ("Mn", 54.938),
   ("Fe", 55.845), ("Co", 58.933), ("Ni", 58.6934), ("Cu", 63.546), ("Zn", 65.38),
   ("Ga", 69.723), ("Ge", 72.63), ("As", 74.921), ("Se", 78.96), ("Br", 79.904),
   ("Kr", 83.798), ("Rb", 85.4678), ("Sr", 87.62), ("Y", 88.905), ("Zr", 91.224),
   ("Nb", 92.906), ("Mo", 95.96), ("Tc", 98), ("Ru", 101.07), ("Rh", 102.905),
   ("Pd", 106.42), ("Ag", 107.8682), ("Cd", 112.411), ("In", 114.818), ("Sn", 118.710),
   ("Sb", 121.760), ("Te", 127.60), ("I", 126.904), ("Xe", 131.293), ("Cs", 132.905),
   ("Ba", 137.327), ("La", 138.905), ("Ce", 140.116), ("Pr", 140.907), ("Nd", 144.242),
   ("Pm", 145), ("Sm", 150.36), ("Eu", 151.964), ("Gd", 157.25), ("Tb", 158.925),
   ("Dy", 162.500), ("Ho", 164.930), ("Er", 167.259), ("Tm", 168.934), ("Yb", 173.054),
   ("Lu", 174.9668), ("Hf", 178.49), ("Ta", 180.947), ("W", 183.84), ("Re", 186.207),
   ("Os", 190.23), ("Ir", 192.217), ("Pt", 195.084), ("Au", 196.966), ("Hg", 200.59),
   ("Tl", 204.3835), ("Pb", 207.2), ("Bi", 208.980), ("Po", 209), ("At", 210),
   ("Rn", 222), ("Fr", 223), ("Ra", 226), ("Ac", 227), ("Th", 232.038),
   ("Pa", 231.035), ("U", 238.028), ("Np", 237), ("Pu", 244), ("Am", 243),
   ("Cm", 247), ("Bk", 247), ("Cf", 251), ("Es", 252), ("Fm", 257),
   ("Md", 258), ("No", 259), ("Lr", 262), ("Rf", 267), ("Db", 268),
   ("Sg", 271), ("Bh", 272), ("Hs", 270), ("Mt", 276), ("Ds", 281),
   ("Rg", 280), ("Cn", 285)]

/-- Dictionary membership plus lookup: `symbol in element_weight` and
`element_weight[symbol]` combined (the keys are unique). -/
def lookupWeight (s : String) : Option ℚ :=
  (element_weight.find? (fun p => p.1 == s)).map Prod.snd

/-- Modelled from the spec: `kasuga_io.quit_with_error` is the fail-fast
error reporter of the repository: its module is not under src/; per the spec
it terminates the current operation with no partial result, which a shallow
embedding renders as an `Except.error` that aborts the computation. -/
def quitWithError {α : Type} (msg : String) : Except String α := .error msg

/-- `Atom.assign_weight` (molecular.py lines 410-414). -/
def assign_weight (a : AtomV) : Except String AtomV :=
  match lookupWeight a.symbol with
  | some w => .ok { a with weight := w }
  | none => quitWithError ("Unrecognized " ++ a.symbol ++ " atom encountered!")

/-- C9: if the atom's symbol has an entry in the atomic-weight table,
`assign_weight` returns the atom with exactly that table weight and signals
no error; if it has none, it invokes the fail-fast reporter and yields no
updated atom at all. -/
theorem assign_weight_spec (a : AtomV) :
    (∀ w, lookupWeight a.symbol = some w → assign_weight a = .ok { a with weight := w }) ∧
    (lookupWeight a.symbol = none →
      assign_weight a = quitWithError ("Unrecognized " ++ a.symbol ++ " atom encountered!") ∧
      ∀ a', assign_weight a ≠ .ok a') := by
  constructor
  · intro w hw
    simp [assign_weight, hw]
  · intro hn
    refine ⟨by simp [assign_weight, hn], ?_⟩
    intro a' h
    simp [assign_weight, hn, quitWithError] at h

/-- A hydrogen atom with its weight not yet assigned. -/
def atomH : AtomV := ⟨"H", 0, ⟨0, 0, 0⟩⟩

/-- An atom whose symbol has no entry in the weight table. -/
def atomXx : AtomV := ⟨"Xx", 0, ⟨0, 0, 0⟩⟩

/-- Witness for C9: the table entry "H" yields weight 1.0075 with no error,
and the unknown symbol "Xx" reaches the fail-fast reporter. -/
theorem assign_weight_spec_witness :
    assign_weight atomH = .ok { atomH with weight := 1.0075 } ∧
    assign_weight atomXx =
      quitWithError ("Unrecognized " ++ atomXx.symbol ++ " atom encountered!") :=
  ⟨(assign_weight_spec atomH).1 1.0075 rfl, ((assign_weight_spec atomXx).2 rfl).1⟩

/-! ## Molecule.get_molecular_formula (molecular.py lines 532-550) -/

/-- Python's `atom_in_formula == atom_in_list`, comparing a str to an Atom:
`str.__eq__` returns NotImplemented and the reflected `Atom.__eq__` evaluates
`other.coord` on the string, raising AttributeError. -/
def pyEqStrAtom (_ : String) (_ : AtomV) : Except String Bool :=
  .error "AttributeError"

/-- The unique element symbols in order of first appearance (lines 537-539). -/
def uniqueSymbols (atoms : List AtomV) : List String :=
  atoms.foldl (fun l a => if l.contains a.symbol then l else l ++ [a.symbol]) []

/-- The counting loop (lines 541-545): one counter per formula symbol, each
incremented by comparing the symbol *string* against every Atom object. -/
def countSymbols (atoms : List AtomV) : List String → Except String (List Nat)
  | [] => .ok []
  | s :: rest => do
    let c ← atoms.foldlM
      (fun c a => do
        let b ← pyEqStrAtom s a
        pure (if b then c + 1 else c))
      0
    let cs ← countSymbols atoms rest
    pure (c :: cs)

/-- `Molecule.get_molecular_formula` (lines 532-550): collect the unique
symbols, sort them (`list.sort()`, ascending lexicographic), count, then
concatenate symbol-count pairs. -/
def get_molecular_formula (m : MoleculeV) : Except String String := do
  let atomList := List.insertionSort (· ≤ ·) (uniqueSymbols m.atoms)
  let countList ← countSymbols m.atoms atomList
  pure ((atomList.zip countList).foldl (fun r p => r ++ p.1 ++ toString p.2) "")

/-- The unique-symbols fold never shrinks a nonempty accumulator. -/
theorem uniqueSymbols_foldl_ne_nil (l : List AtomV) :
    ∀ acc : List String, acc ≠ [] →
      l.foldl (fun l a => if l.contains a.symbol then l else l ++ [a.symbol]) acc ≠ [] := by
  induction l with
  | nil => intro acc h; exact h
  | cons a as ih =>
    intro acc h
    simp only [List.foldl_cons]
    by_cases hc : acc.contains a.symbol
    · simp only [hc, if_pos]
      exact ih acc h
    · simp only [hc, if_neg]
      exact ih (acc ++ [a.symbol]) (by simp)

/-- The count loop fails as soon as there is a symbol to count and an atom to
compare it with. -/
theorem countSymbols_error (a : AtomV) (as : List AtomV) (s : String) (rest : List String) :
    countSymbols (a :: as) (s :: rest) = .error "AttributeError" := rfl

/-- C7: the claim states `get_molecular_formula` returns the sorted element
symbols with their counts for every molecule with at least one atom.  The
source instead compares the symbol string against the Atom *object*
(`atom_in_formula == atom_in_list`), which raises AttributeError, so the
method fails on every nonempty molecule and never produces a formula. -/
theorem get_molecular_formula_raises (m : MoleculeV) (h : m.atoms ≠ []) :
    get_molecular_formula m = .error "AttributeError" := by
  match hm : m.atoms with
  | [] => exact absurd hm h
  | a :: as =>
    have h1 : uniqueSymbols m.atoms ≠ [] := by
      rw [hm]
      show List.foldl _ [] (a :: as) ≠ []
      simp only [List.foldl_cons, List.contains_nil]
      exact uniqueSymbols_foldl_ne_nil as [a.symbol] (by simp)
    have h2 : List.insertionSort (· ≤ ·) (uniqueSymbols m.atoms) ≠ [] := by
      intro hs
      have := List.perm_insertionSort (· ≤ ·) (uniqueSymbols m.atoms)
      rw [hs] at this
      exact h1 (List.Perm.nil_eq this).symm
    match hsort : List.insertionSort (· ≤ ·) (uniqueSymbols m.atoms) with
    | [] => exact absurd hsort h2
    | s :: rest =>
      show Except.bind (countSymbols m.atoms
        (List.insertionSort (· ≤ ·) (uniqueSymbols m.atoms))) _ = _
      rw [hsort, hm, countSymbols_error]
      rfl

/-- A molecule holding a single hydrogen atom. -/
def molH1 : MoleculeV := ⟨[⟨"H", 1.0075, ⟨0, 0, 0⟩⟩], ⟨1, fun _ _ => false⟩⟩

/-- Witness for C7: on the one-atom molecule the formula computation raises
AttributeError (the claim would require the string "H1"). -/
theorem get_molecular_formula_raises_witness :
    get_molecular_formula molH1 = .error "AttributeError" :=
  get_molecular_formula_raises molH1 (by simp [molH1])

/-! ## Molecule.__add__ (molecular.py lines 461-463) -/

/-- `Molecule.__add__`: `for i in other.atoms: self.atoms.append(i)` and no
return statement, hence the value None.  The result triple collects self's
post-state, other's post-state and the value of the `+` expression. -/
def Molecule.add (self other : MoleculeV) : MoleculeV × MoleculeV × Option MoleculeV :=
  ({ self with atoms := other.atoms.foldl (fun acc a => acc ++ [a]) self.atoms },
   other, none)

/-- C10: `m1 + m2` appends every atom of m2, in order, to the end of m1's
atom list, leaves m2's atom list unchanged, and the expression itself
evaluates to None — no new molecule is constructed. -/
theorem molecule_add_spec (m1 m2 : MoleculeV) :
    Molecule.add m1 m2 = ({ m1 with atoms := m1.atoms ++ m2.atoms }, m2, none) := by
  have hfold : ∀ (l2 l1 : List AtomV),
      l2.foldl (fun acc a => acc ++ [a]) l1 = l1 ++ l2 := by
    intro l2
    induction l2 with
    | nil => intro l1; simp
    | cons a as ih =>
      intro l1
      rw [List.foldl_cons, ih, List.append_assoc]
      rfl
  unfold Molecule.add
  rw [hfold]

end Kasuga
